import Mathlib

/-!
Shallow embedding of `nosebook.py` (nosebook 0.4.0): a nose plugin that
discovers IPython/Jupyter notebook files and runs each code cell as a test
against a live kernel.  Python dicts are modelled as association lists over
`String` keys (notebook output values are rendered as strings: no claim
depends on the structure of a value, only on which keys are present).
Machinery external to the repository (the `nbformat` parser, the kernel
process) is modelled at its interface, as the spec describes it.
-/

set_option autoImplicit false

namespace Nosebook

/-- An Output record of a previously executed cell: a Python dict,
modelled as an association list from field name to (string-rendered)
value.  `NoseCellTestCase.stripKeys` pops keys from such a dict. -/
abbrev Output := List (String × String)

/-- A Cell of the canonical (converted, nbformat v4) document schema:
`cell_type` tag, `source` string, and the recorded outputs.
Mirrors the fields of the cell dict that `nosebook.py` touches. -/
structure Cell where
  cell_type : String
  source : String
  outputs : List Output
  deriving DecidableEq, Repr

/-- A Document: the parsed, version-converted notebook, an ordered list of
cells (`nb.cells`).  Metadata (kernelspec name) is only passed opaquely to
the external kernel starter and is not modelled. -/
structure Document where
  cells : List Cell
  deriving DecidableEq, Repr

/-- `NoseCellTestCase.STRIP_KEYS`: the fixed removal set. -/
def STRIP_KEYS : List String :=
  ["execution_count", "traceback", "prompt_number", "source"]

/-- Python `d.pop(key, None)` on a dict: remove the binding for `key` if
present; absence is not an error. -/
def popKey (d : Output) (key : String) : Output :=
  d.filter (fun kv => kv.1 != key)

/-- `NoseCellTestCase.stripKeys`: `for key in self.STRIP_KEYS:
d.pop(key, None)`, then return `d`. -/
def stripKeys (d : Output) : Output :=
  STRIP_KEYS.foldl popKey d

/-- `NoseCellTestCase.sanitizeCell`: strip the removal-set keys from every
output of the cell, returning the cell (in the Python source the outputs
are mutated in place; here the updated cell is returned). -/
def sanitizeCell (cell : Cell) : Cell :=
  { cell with outputs := cell.outputs.map stripKeys }

/-- Folding `popKey` over any key list filters the dict down to the
entries whose key is not in the list. -/
theorem foldl_popKey_eq_filter (ks : List String) (d : Output) :
    ks.foldl popKey d = d.filter (fun kv => !(ks.contains kv.1)) := by
  induction ks generalizing d with
  | nil => simp
  | cons k ks ih =>
      rw [List.foldl_cons, ih, popKey, List.filter_filter]
      apply List.filter_congr
      intro kv _
      rw [List.contains_cons]
      by_cases h : kv.1 = k <;> simp [h, Bool.and_comm, bne]

/-- Characterization of `stripKeys`: it keeps exactly the entries whose
key is outside the removal set, unchanged and in order. -/
theorem stripKeys_eq_filter (d : Output) :
    stripKeys d = d.filter (fun kv => !(STRIP_KEYS.contains kv.1)) :=
  foldl_popKey_eq_filter STRIP_KEYS d

/-- `stripKeys` is idempotent. -/
theorem stripKeys_idem (d : Output) :
    stripKeys (stripKeys d) = stripKeys d := by
  simp [stripKeys_eq_filter, List.filter_filter]

/-- No entry surviving `stripKeys` has its key in the removal set. -/
theorem stripKeys_no_strip_key (d : Output) (kv : String × String)
    (h : kv ∈ stripKeys d) : kv.1 ∉ STRIP_KEYS := by
  rw [stripKeys_eq_filter] at h
  have := List.of_mem_filter h
  simpa using this

/-- `Nosebook.codeCells`: generator yielding the cells of `nb.cells` whose
`cell_type` is `"code"`, in document order.  The generator is embedded as
the list of cells it yields. -/
def codeCells : List Cell → List Cell
  | [] => []
  | cell :: rest =>
      if cell.cell_type == "code" then cell :: codeCells rest
      else codeCells rest

/-- The content payload of a kernel iopub message, restricted to the
fields `nosebook.py` reads: `execution_state` (of status messages) and
`ename`/`evalue` (of error messages). -/
structure MsgContent where
  execution_state : String
  ename : String
  evalue : String
  deriving DecidableEq, Repr

/-- A kernel iopub message: type tag plus content. -/
structure Msg where
  msg_type : String
  content : MsgContent
  deriving DecidableEq, Repr

/-- `NoseCellTestCase.shouldContinue`: `None` (no message observed yet)
means continue; otherwise stop exactly on a status message whose
execution state is idle. -/
def shouldContinue : Option Msg → Bool
  | none => true
  | some msg =>
      !(msg.msg_type == "status" && msg.content.execution_state == "idle")

/-- The text of the exception `runTest` raises on a kernel error message:
`"Error during cell evaluation\nSource:\n%s\n%s\n%s" % (cell.source,
ename, evalue)`. -/
def errorMessage (cell : Cell) (msg : Msg) : String :=
  "Error during cell evaluation\nSource:\n" ++ cell.source ++ "\n"
    ++ msg.content.ename ++ "\n" ++ msg.content.evalue

/-- Outcome of a cell-test run: the loop exits normally (pass) or raises
an exception carrying a message (fail). -/
inductive RunResult
  | passed
  | failed (message : String)
  deriving DecidableEq, Repr

/-- `NoseCellTestCase.runTest`, embedded over the finite list of iopub
messages the kernel emits for this cell.  Each loop iteration polls the
next message (a poll timeout retries, so exhausting the list without a
terminating message is divergence, modelled as `none`); an error-typed
message raises immediately; an idle status message ends the loop at its
top on the next iteration.  The result carries the unconsumed rest of the
stream. -/
def runTest (cell : Cell) : List Msg → Option (RunResult × List Msg)
  | [] => none
  | msg :: rest =>
      if msg.msg_type == "error" then
        some (.failed (errorMessage cell msg), rest)
      else if shouldContinue (some msg) then
        runTest cell rest
      else
        some (.passed, rest)

/-- `s` has `t` as a substring. -/
def strContains (s t : String) : Prop :=
  ∃ a b : String, s = a ++ t ++ b

/-- A notebook file on disk, as the discovery layer sees it: its path
and the outcome of the external parse (`nbformat.reader.reads` composed
with `convert`): `some nb` when parsing succeeds, `none` when `reads`
raises. -/
structure SourceFile where
  filename : String
  parsed : Option Document

/-- Exceptions of the Python runtime that the embedding tracks. -/
inductive PyError
  | attributeError
  deriving DecidableEq, Repr

/-- Result of `Nosebook.readnb`: a converted document, or the Python
literal `False` returned as a sentinel after a parse error is caught and
logged. -/
inductive ReadNbResult
  | doc (nb : Document)
  | sentinelFalse
  deriving DecidableEq, Repr

/-- `Nosebook.readnb`: parse the file; on any parse exception log it and
return `False`; otherwise return the converted document. -/
def readnb (f : SourceFile) : ReadNbResult :=
  match f.parsed with
  | some nb => .doc nb
  | none => .sentinelFalse

/-- `Nosebook.wantFile`: reject files not matching the test pattern; read
the notebook; accept iff it has at least one code cell.  When `readnb`
returned the sentinel `False`, the `for cell in self.codeCells(nb)` loop
evaluates `False.cells`, which raises `AttributeError` (a bool has no
attribute `cells`); the embedding records that raised exception. -/
def wantFile (testMatch : String → Bool) (f : SourceFile) :
    Except PyError Bool :=
  if testMatch f.filename then
    match readnb f with
    | .sentinelFalse => .error .attributeError
    | .doc nb =>
        match codeCells nb.cells with
        | [] => .ok false
        | _ :: _ => .ok true
  else
    .ok false

/-- `NoseCellTestCase.__init__` stores the sanitized cell, the code-cell
index, the filename and the kernel handle (kernels are identified by a
numeric handle; `iopub` is a channel of that kernel and is not modelled
separately). -/
structure NoseCellTestCase where
  cell : Cell
  cell_idx : Nat
  filename : String
  kernel : Nat
  deriving DecidableEq, Repr

/-- Construct a `NoseCellTestCase` as `__init__` does: the cell is
sanitized exactly once, at construction. -/
def mkNoseCellTestCase (cell : Cell) (cell_idx : Nat) (kernel : Nat)
    (filename : String) : NoseCellTestCase :=
  { cell := sanitizeCell cell
    cell_idx := cell_idx
    filename := filename
    kernel := kernel }

/-- `NoseCellTestCase.id`: `"%s#%s" % (self.filename, self.cell_idx)`. -/
def NoseCellTestCase.id (t : NoseCellTestCase) : String :=
  t.filename ++ "#" ++ toString t.cell_idx

/-- Kernel-lifecycle and discovery events emitted while loading the tests
of one document. -/
inductive LoadEvent
  | kernelStart (kernel : Nat)
  | kernelTerminate (kernel : Nat)
  | yieldTest (t : NoseCellTestCase)
  deriving DecidableEq, Repr

/-- Is this event a kernel start? -/
def LoadEvent.isStart : LoadEvent → Bool
  | .kernelStart _ => true
  | _ => false

/-- Is this event a kernel termination/teardown? -/
def LoadEvent.isTerminate : LoadEvent → Bool
  | .kernelTerminate _ => true
  | _ => false

/-- The test cases yielded by `Nosebook.loadTestsFromFile` for a parsed
document: `for cell_idx, cell in enumerate(self.codeCells(nb)): yield
NoseCellTestCase(cell, cell_idx, kernel, filename=filename)`. -/
def loadTests (filename : String) (nb : Document) (kernel : Nat) :
    List NoseCellTestCase :=
  (codeCells nb.cells).enum.map
    (fun p => mkNoseCellTestCase p.2 p.1 kernel filename)

/-- The full event trace of `Nosebook.loadTestsFromFile` on a parsed
document: `self.newKernel(nb)` starts one kernel (identified by the
handle `kernel`), then the generator yields the cell tests.  The function
body contains no kernel shutdown or teardown of any kind, so the trace
ends with the last yield. -/
def loadTestsFromFile (filename : String) (nb : Document) (kernel : Nat) :
    List LoadEvent :=
  .kernelStart kernel :: (loadTests filename nb kernel).map .yieldTest

/-- The tests carried by the `yieldTest` events of a trace, in order. -/
def yieldedTests (events : List LoadEvent) : List NoseCellTestCase :=
  events.filterMap fun e =>
    match e with
    | .yieldTest t => some t
    | _ => none

/-! Concrete fixtures used by witnesses and counterexamples. -/

/-- A recorded output carrying every removal-set key plus reproducible
fields. -/
def exampleOutput : Output :=
  [("output_type", "stream"), ("execution_count", "3"),
   ("text", "hi"), ("traceback", "Traceback (most recent call last)"),
   ("prompt_number", "2"), ("source", "x = 1")]

/-- A code cell with one recorded output. -/
def exampleCell : Cell :=
  { cell_type := "code", source := "x = 1", outputs := [exampleOutput] }

/-- A second code cell, with no recorded outputs. -/
def exampleCell2 : Cell :=
  { cell_type := "code", source := "assert x == 1", outputs := [] }

/-- A non-code cell. -/
def exampleMarkdownCell : Cell :=
  { cell_type := "markdown", source := "notes", outputs := [] }

/-- A three-cell document: markdown, then two code cells. -/
def exampleDoc : Document :=
  { cells := [exampleMarkdownCell, exampleCell, exampleCell2] }

/-- A status message reporting the kernel idle. -/
def idleMsg : Msg :=
  { msg_type := "status"
    content := { execution_state := "idle", ename := "", evalue := "" } }

/-- An error message as the kernel emits for an uncaught exception. -/
def errMsg : Msg :=
  { msg_type := "error"
    content := { execution_state := "busy"
                 ename := "ZeroDivisionError"
                 evalue := "division by zero" } }

/-- A notebook file whose content fails to parse. -/
def badFile : SourceFile :=
  { filename := "testBad.ipynb", parsed := none }

/-- The first test case loaded from `exampleDoc` under kernel handle 7. -/
def exampleTest : NoseCellTestCase :=
  mkNoseCellTestCase exampleCell 0 7 "test.ipynb"

/-! Helper lemmas shared by the claim theorems. -/

/-- `codeCells` is the filter of the cell list by the `code` type tag. -/
theorem codeCells_eq_filter (cells : List Cell) :
    codeCells cells = cells.filter (fun cell => cell.cell_type == "code") := by
  induction cells with
  | nil => rfl
  | cons cell rest ih =>
      by_cases h : cell.cell_type = "code" <;>
        simp [codeCells, List.filter_cons, h, ih]

/-- Every cell yielded by `codeCells` has the `code` type tag. -/
theorem mem_codeCells {cells : List Cell} {cell : Cell}
    (h : cell ∈ codeCells cells) : cell.cell_type = "code" := by
  rw [codeCells_eq_filter] at h
  simpa using List.of_mem_filter h

/-- `yieldedTests` recovers the tests from a pure stream of yields. -/
theorem yieldedTests_map (tests : List NoseCellTestCase) :
    yieldedTests (tests.map LoadEvent.yieldTest) = tests := by
  induction tests with
  | nil => rfl
  | cons t ts ih => simpa [yieldedTests, List.filterMap_cons] using ih

/-- The tests yielded by the `loadTestsFromFile` trace are `loadTests`. -/
theorem yieldedTests_loadTestsFromFile (filename : String) (nb : Document)
    (kernel : Nat) :
    yieldedTests (loadTestsFromFile filename nb kernel)
      = loadTests filename nb kernel := by
  have h := yieldedTests_map (loadTests filename nb kernel)
  simpa [loadTestsFromFile, yieldedTests, List.filterMap_cons] using h

/-- Every test loaded for a document holds the kernel handle passed to
`loadTestsFromFile`. -/
theorem loadTests_kernel (filename : String) (nb : Document) (kernel : Nat)
    (t : NoseCellTestCase) (h : t ∈ loadTests filename nb kernel) :
    t.kernel = kernel := by
  obtain ⟨p, hp, rfl⟩ := List.mem_map.1 h
  rfl

/-- The cells of the loaded tests are the sanitized code cells, in
document order. -/
theorem loadTests_map_cell (filename : String) (nb : Document) (kernel : Nat) :
    (loadTests filename nb kernel).map NoseCellTestCase.cell
      = (codeCells nb.cells).map sanitizeCell := by
  rw [loadTests, List.map_map]
  have h2 : (codeCells nb.cells).map sanitizeCell
      = ((codeCells nb.cells).enum.map Prod.snd).map sanitizeCell := by
    rw [List.enum_map_snd]
  rw [h2, List.map_map]
  rfl

/-- Identifier of the `i`-th loaded test. -/
theorem loadTests_get_id (filename : String) (nb : Document) (kernel : Nat)
    (i : Nat) (h : i < (loadTests filename nb kernel).length) :
    ((loadTests filename nb kernel).get ⟨i, h⟩).id
      = filename ++ "#" ++ toString i := by
  simp [loadTests, List.get_eq_getElem, List.getElem_map, List.getElem_enum,
    NoseCellTestCase.id, mkNoseCellTestCase]

/-- The cell source is a substring of the raised error text. -/
theorem errorMessage_contains_source (cell : Cell) (msg : Msg) :
    strContains (errorMessage cell msg) cell.source :=
  ⟨"Error during cell evaluation\nSource:\n",
   "\n" ++ msg.content.ename ++ "\n" ++ msg.content.evalue, by
    simp [errorMessage, String.append_assoc]⟩

/-- The error name is a substring of the raised error text. -/
theorem errorMessage_contains_ename (cell : Cell) (msg : Msg) :
    strContains (errorMessage cell msg) msg.content.ename :=
  ⟨"Error during cell evaluation\nSource:\n" ++ cell.source ++ "\n",
   "\n" ++ msg.content.evalue, by
    simp [errorMessage, String.append_assoc]⟩

/-- The error value is a substring of the raised error text. -/
theorem errorMessage_contains_evalue (cell : Cell) (msg : Msg) :
    strContains (errorMessage cell msg) msg.content.evalue :=
  ⟨"Error during cell evaluation\nSource:\n" ++ cell.source ++ "\n"
     ++ msg.content.ename ++ "\n", "", by
    simp [errorMessage, String.append_assoc, String.append_empty]⟩

/-- Running a stream whose prefix raises no error and never goes idle
fails at the first error message, leaving the rest unconsumed. -/
theorem runTest_append_error (cell : Cell) (pre : List Msg) (msg : Msg)
    (post : List Msg)
    (hpre : ∀ m ∈ pre, m.msg_type ≠ "error" ∧ shouldContinue (some m) = true)
    (herr : msg.msg_type = "error") :
    runTest cell (pre ++ msg :: post)
      = some (.failed (errorMessage cell msg), post) := by
  induction pre with
  | nil => simp [runTest, herr]
  | cons m pre ih =>
      obtain ⟨hm1, hm2⟩ := hpre m (List.mem_cons_self _ _)
      simp only [List.cons_append, runTest, hm2, if_true]
      rw [if_neg (by simpa using hm1)]
      exact ih fun m hm => hpre m (List.mem_cons_of_mem _ hm)

/-! The claim theorems. -/

/-- C3: `shouldContinue` returns true on `None` (no message observed
yet), returns false exactly on a status message whose execution state is
`idle`, and returns true on every other message; hence a cell whose
stream is a lone idle status message (zero other output messages) is
recorded as passing. -/
theorem C3_shouldContinue_spec :
    shouldContinue none = true
    ∧ (∀ msg : Msg, shouldContinue (some msg) = false ↔
        (msg.msg_type = "status" ∧ msg.content.execution_state = "idle"))
    ∧ (∀ (cell : Cell) (msg : Msg), msg.msg_type = "status" →
        msg.content.execution_state = "idle" →
        runTest cell [msg] = some (.passed, [])) := by
  refine ⟨rfl, fun msg => ?_, fun cell msg h1 h2 => ?_⟩
  · simp [shouldContinue]
  · simp [runTest, shouldContinue, h1, h2]

/-- Witness for C3: a concrete cell whose stream is one idle status
message passes. -/
theorem C3_witness :
    idleMsg.msg_type = "status" ∧ idleMsg.content.execution_state = "idle"
    ∧ runTest exampleCell [idleMsg] = some (.passed, []) :=
  ⟨rfl, rfl, C3_shouldContinue_spec.2.2 exampleCell idleMsg rfl rfl⟩

/-- C4: a stream whose first error-typed message follows only non-error,
non-idle messages makes `runTest` fail with a message containing the cell
source, the error name and the error value, and the messages after the
error are not consumed. -/
theorem C4_error_raises (cell : Cell) (pre : List Msg) (msg : Msg)
    (post : List Msg)
    (hpre : ∀ m ∈ pre, m.msg_type ≠ "error" ∧ shouldContinue (some m) = true)
    (herr : msg.msg_type = "error") :
    runTest cell (pre ++ msg :: post)
      = some (.failed (errorMessage cell msg), post)
    ∧ strContains (errorMessage cell msg) cell.source
    ∧ strContains (errorMessage cell msg) msg.content.ename
    ∧ strContains (errorMessage cell msg) msg.content.evalue :=
  ⟨runTest_append_error cell pre msg post hpre herr,
   errorMessage_contains_source cell msg,
   errorMessage_contains_ename cell msg,
   errorMessage_contains_evalue cell msg⟩

/-- Witness for C4: a concrete error stream with a trailing message that
stays unconsumed. -/
theorem C4_witness :
    runTest exampleCell [errMsg, idleMsg]
      = some (.failed (errorMessage exampleCell errMsg), [idleMsg])
    ∧ strContains (errorMessage exampleCell errMsg) "ZeroDivisionError" :=
  ⟨(C4_error_raises exampleCell [] errMsg [idleMsg]
      (fun m hm => absurd hm (List.not_mem_nil m)) rfl).1,
   (C4_error_raises exampleCell [] errMsg [idleMsg]
      (fun m hm => absurd hm (List.not_mem_nil m)) rfl).2.2.1⟩

/-- C6: after sanitization no output of the cell retains any key of the
removal set, whichever keys were present in the input. -/
theorem C6_sanitized_outputs_free_of_strip_keys (cell : Cell) (o : Output)
    (ho : o ∈ (sanitizeCell cell).outputs) (key : String)
    (hk : key ∈ STRIP_KEYS) : ∀ kv ∈ o, kv.1 ≠ key := by
  obtain ⟨o0, ho0, rfl⟩ := List.mem_map.1 ho
  intro kv hkv hEq
  subst hEq
  exact stripKeys_no_strip_key o0 kv hkv hk

/-- Witness for C6: the concrete sanitized output holds its reproducible
entry and not the traceback key. -/
theorem C6_witness :
    stripKeys exampleOutput ∈ (sanitizeCell exampleCell).outputs
    ∧ "traceback" ∈ STRIP_KEYS
    ∧ ("output_type", "stream") ∈ stripKeys exampleOutput
    ∧ ("output_type", "stream").1 ≠ "traceback" :=
  ⟨by decide, by decide, by decide,
    C6_sanitized_outputs_free_of_strip_keys exampleCell
      (stripKeys exampleOutput) (by decide) "traceback" (by decide)
      ("output_type", "stream") (by decide)⟩

/-- C7: sanitization is idempotent: sanitizing an already-sanitized cell
is a no-op. -/
theorem C7_sanitizeCell_idem (cell : Cell) :
    sanitizeCell (sanitizeCell cell) = sanitizeCell cell := by
  have h : ∀ l : List Output, (l.map stripKeys).map stripKeys
      = l.map stripKeys := by
    intro l
    rw [List.map_map]
    exact List.map_congr_left fun o _ => stripKeys_idem o
  simp [sanitizeCell, h]

/-- C8: `codeCells` yields exactly the cells tagged `code`, in original
document order (a sublist of the cell list), and, being a pure function
of the document, is restartable. -/
theorem C8_codeCells_spec (nb : Document) :
    codeCells nb.cells = nb.cells.filter (fun cell => cell.cell_type == "code")
    ∧ List.Sublist (codeCells nb.cells) nb.cells
    ∧ (∀ cell ∈ codeCells nb.cells, cell.cell_type = "code")
    ∧ codeCells nb.cells = codeCells nb.cells :=
  ⟨codeCells_eq_filter nb.cells,
   by rw [codeCells_eq_filter]; exact List.filter_sublist _,
   fun cell h => mem_codeCells h, rfl⟩

/-- Witness for C8 at the example document. -/
theorem C8_witness :
    exampleCell ∈ codeCells exampleDoc.cells
    ∧ exampleCell.cell_type = "code" :=
  ⟨by decide, (C8_codeCells_spec exampleDoc).2.2.1 exampleCell (by decide)⟩

/-- C10: frame condition of sanitization: the cell type tag and source
are unchanged, and each output keeps exactly its entries whose key is
outside the removal set, unchanged and in order. -/
theorem C10_sanitize_frame (cell : Cell) :
    (sanitizeCell cell).cell_type = cell.cell_type
    ∧ (sanitizeCell cell).source = cell.source
    ∧ (sanitizeCell cell).outputs
        = cell.outputs.map
            (fun o => o.filter (fun kv => !(STRIP_KEYS.contains kv.1))) :=
  ⟨rfl, rfl, List.map_congr_left fun o _ => stripKeys_eq_filter o⟩

/-- C1 (evaluated at the failing input): for a file matching the test
pattern whose content fails to parse, `readnb` does catch the parse error
and return the sentinel `False`; but `wantFile` then raises
`AttributeError` to the discovery layer instead of returning `False`,
because iterating `codeCells(False)` evaluates `False.cells`. -/
theorem C1_wantFile_parse_failure :
    readnb badFile = .sentinelFalse
    ∧ wantFile (fun _ => true) badFile = .error .attributeError :=
  ⟨rfl, rfl⟩

/-- C2 counterexample: running `loadTestsFromFile` on the concrete example
document to the end of its trace never emits a kernel termination
event — the kernel started for the document is not torn down. -/
theorem C2_counterexample :
    ¬ ∃ kid, LoadEvent.kernelTerminate kid
        ∈ loadTestsFromFile "test.ipynb" exampleDoc 7 := by
  rintro ⟨kid, h⟩
  rcases List.mem_cons.1 h with h1 | h2
  · exact LoadEvent.noConfusion h1
  · obtain ⟨t, ht, hEq⟩ := List.mem_map.1 h2
    exact LoadEvent.noConfusion hEq

/-- C2 (amended): `loadTestsFromFile` starts exactly one kernel per
document, before yielding any cell test, but never terminates it: its
trace contains no teardown event on any path. -/
theorem C2_kernel_started_never_terminated (filename : String)
    (nb : Document) (kernel : Nat) :
    (loadTestsFromFile filename nb kernel).head?
        = some (.kernelStart kernel)
    ∧ (loadTestsFromFile filename nb kernel).countP LoadEvent.isStart = 1
    ∧ ∀ e ∈ loadTestsFromFile filename nb kernel, e.isTerminate = false := by
  refine ⟨rfl, ?_, ?_⟩
  · have h0 : ((loadTests filename nb kernel).map
        LoadEvent.yieldTest).countP LoadEvent.isStart = 0 := by
      rw [List.countP_eq_zero]
      intro e he
      obtain ⟨t, ht, rfl⟩ := List.mem_map.1 he
      simp [LoadEvent.isStart]
    simp [loadTestsFromFile, List.countP_cons, h0, LoadEvent.isStart]
  · intro e he
    rcases List.mem_cons.1 he with rfl | h2
    · rfl
    · obtain ⟨t, ht, rfl⟩ := List.mem_map.1 h2
      rfl

/-- Witness for C2 (amended) at the example document. -/
theorem C2_witness :
    LoadEvent.kernelStart 7 ∈ loadTestsFromFile "test.ipynb" exampleDoc 7
    ∧ (LoadEvent.kernelStart 7).isTerminate = false :=
  ⟨List.mem_cons_self _ _,
    (C2_kernel_started_never_terminated "test.ipynb" exampleDoc 7).2.2
      (LoadEvent.kernelStart 7) (List.mem_cons_self _ _)⟩

/-- C5: the trace of `loadTestsFromFile` opens with the single kernel
start, before any cell test is yielded; every yielded test holds that
same kernel handle; and the yielded tests carry the document's code cells
(sanitized) in document order. -/
theorem C5_single_kernel_document_order (filename : String) (nb : Document)
    (kernel : Nat) :
    (loadTestsFromFile filename nb kernel).head?
        = some (.kernelStart kernel)
    ∧ (∀ t ∈ yieldedTests (loadTestsFromFile filename nb kernel),
        t.kernel = kernel)
    ∧ (yieldedTests (loadTestsFromFile filename nb kernel)).map
          NoseCellTestCase.cell
        = (codeCells nb.cells).map sanitizeCell := by
  refine ⟨rfl, ?_, ?_⟩
  · intro t ht
    rw [yieldedTests_loadTestsFromFile] at ht
    exact loadTests_kernel filename nb kernel t ht
  · rw [yieldedTests_loadTestsFromFile]
    exact loadTests_map_cell filename nb kernel

/-- Witness for C5 at the example document. -/
theorem C5_witness :
    exampleTest ∈ yieldedTests (loadTestsFromFile "test.ipynb" exampleDoc 7)
    ∧ exampleTest.kernel = 7 :=
  ⟨by decide,
    (C5_single_kernel_document_order "test.ipynb" exampleDoc 7).2.1
      exampleTest (by decide)⟩

/-- C9: the identifier of the `i`-th cell test is the file path, `#`,
and the 0-based code-cell index; the identifiers do not depend on the
kernel of the run, so loading the same unmodified document twice yields
identical identifiers. -/
theorem C9_id_deterministic (filename : String) (nb : Document)
    (kernel kernel2 : Nat) (i : Nat)
    (h : i < (loadTests filename nb kernel).length) :
    ((loadTests filename nb kernel).get ⟨i, h⟩).id
        = filename ++ "#" ++ toString i
    ∧ (loadTests filename nb kernel).map NoseCellTestCase.id
        = (loadTests filename nb kernel2).map NoseCellTestCase.id := by
  refine ⟨loadTests_get_id filename nb kernel i h, ?_⟩
  simp only [loadTests, List.map_map]
  rfl

/-- Witness for C9 at the example document, index 0. -/
theorem C9_witness :
    0 < (loadTests "test.ipynb" exampleDoc 7).length
    ∧ ((loadTests "test.ipynb" exampleDoc 7).get ⟨0, by decide⟩).id
        = "test.ipynb" ++ "#" ++ toString 0 :=
  ⟨by decide,
    (C9_id_deterministic "test.ipynb" exampleDoc 7 8 0 (by decide)).1⟩

end Nosebook
